import Mathlib

/-!
Verification development for the narration subsystem of the
`image-descriptor` application (`src/Photo1/app/(tabs)/index.tsx`).

The embedding covers:
* the language catalog `LANGUAGES` and the cyclic language advance
  (`changeLanguage`, lines 43-50 and 471-483 of the source);
* the hazard-text pipeline: `hasHazardousObjects` (lines 260-264), the
  normalization performed inside `speakCurrentDescription` (lines 412-421)
  and `translateHazardInfo` (lines 266-357);
* the temporary-file lifecycle of `playServerAudio` (lines 186-231);
* an operational model of the `speakCurrentDescription` async control flow
  (lines 359-446) as a step machine over explicit events.

JavaScript strings are modelled as `List Char` / `String`; the four regex
replacements of the source are implemented as deterministic scanners that
mirror the leftmost-match, greedy semantics of the concrete patterns
(none of the patterns needs genuine backtracking: every quantified class is
disjoint from the literal that follows it).  The global (`g` flag)
replacements recurse on the unmatched suffix; since every match consumes at
least one character, a fuel argument equal to the input length makes the
recursion structural without changing the computed result.
`String.toLowerCase` is modelled by `Char.toLower`, which lower-cases the
ASCII range; all search patterns in the source are ASCII.
-/

namespace ImgDesc

/-- A language catalog entry, mirroring the `Language` interface of the
source (fields `code`, `name`, `voice`). -/
structure Language where
  code : String
  name : String
  voice : String
deriving DecidableEq

/-- Catalog entry `{ code: 'english', name: 'English', voice: 'en-US' }`. -/
def englishLang : Language := ⟨"english", "English", "en-US"⟩

/-- Catalog entry `{ code: 'hindi', name: 'Hindi', voice: 'hi-IN' }`. -/
def hindiLang : Language := ⟨"hindi", "Hindi", "hi-IN"⟩

/-- Catalog entry `{ code: 'bengali', name: 'Bengali', voice: 'bn-IN' }`. -/
def bengaliLang : Language := ⟨"bengali", "Bengali", "bn-IN"⟩

/-- Catalog entry `{ code: 'telugu', name: 'Telugu', voice: 'te-IN' }`. -/
def teluguLang : Language := ⟨"telugu", "Telugu", "te-IN"⟩

/-- Catalog entry `{ code: 'tamil', name: 'Tamil', voice: 'ta-IN' }`. -/
def tamilLang : Language := ⟨"tamil", "Tamil", "ta-IN"⟩

/-- Catalog entry `{ code: 'malayalam', name: 'Malayalam', voice: 'ml-IN' }`. -/
def malayalamLang : Language := ⟨"malayalam", "Malayalam", "ml-IN"⟩

/-- The fixed six-entry language catalog `LANGUAGES` (source lines 43-50). -/
def LANGUAGES : List Language :=
  [englishLang, hindiLang, bengaliLang, teluguLang, tamilLang, malayalamLang]

/-- The index update performed by `changeLanguage` (source line 482):
`setCurrentLanguageIndex((prev) => (prev + 1) % LANGUAGES.length)`. -/
def nextLanguageIndex (i : Nat) : Nat := (i + 1) % LANGUAGES.length

/-- The `n`-fold application of `nextLanguageIndex`, i.e. advancing the
language `n` times in a row. -/
def advanceLanguageTimes : Nat → Nat → Nat
  | 0, i => i
  | n + 1, i => advanceLanguageTimes n (nextLanguageIndex i)

/-- The JavaScript regex class `\s` restricted to the characters that can
occur in this pipeline: space, tab, newline, carriage return, vertical tab
and form feed. -/
def isJsWhitespace (c : Char) : Bool :=
  c = ' ' || c = '\t' || c = '\n' || c = '\x0d' || c = '\x0b' || c = '\x0c'

/-- Drop a maximal run of `\s` characters (the greedy `\s*`). -/
def dropWs : List Char → List Char
  | [] => []
  | c :: cs => if isJsWhitespace c then dropWs cs else c :: cs

/-- Drop a maximal run of decimal digits. -/
def dropDigits : List Char → List Char
  | [] => []
  | c :: cs => if c.isDigit then dropDigits cs else c :: cs

/-- The greedy `\d+`: require at least one digit, consume a maximal run of
digits, and return the remaining suffix. -/
def takeDigits : List Char → Option (List Char)
  | [] => none
  | c :: cs => if c.isDigit then some (dropDigits cs) else none

/-- Case-insensitive literal match: try to match the pattern (first
argument) at the head of the text and return the suffix after the match.
Case folding is `Char.toLower`, matching the ASCII behaviour of the
case-insensitive regex flag on the ASCII patterns of the source. -/
def matchLitCI : List Char → List Char → Option (List Char)
  | [], rest => some rest
  | _ :: _, [] => none
  | p :: ps, c :: cs => if p.toLower = c.toLower then matchLitCI ps cs else none

/-- Optionally consume one occurrence of the given character,
case-insensitively (the regex `x?` for a single literal `x`). -/
def matchOptCI (x : Char) : List Char → List Char
  | [] => []
  | c :: cs => if c.toLower = x.toLower then cs else c :: cs

/-- Match the pattern `Detected \d+ objects?:?\n?` (case-insensitive) at
the head of the text, returning the suffix after the match.  Greedy
matching of `s?`, `:?` and `\n?` is exact here because each optional
literal is followed by a distinct literal (or the end of the pattern). -/
def matchEnumHeader (cs : List Char) : Option (List Char) := do
  let r1 ← matchLitCI "detected ".data cs
  let r2 ← takeDigits r1
  let r3 ← matchLitCI " object".data r2
  let r4 := matchOptCI 's' r3
  let r5 := matchOptCI ':' r4
  let r6 := matchOptCI '\n' r5
  pure r6

/-- Source line 415:
`hazardText.replace(/Detected \d+ objects?:?\n?/i, 'Safety alert: ')` —
replace the first (leftmost) occurrence only, since the regex has no `g`
flag. -/
def replaceEnumHeader : List Char → List Char
  | [] => []
  | c :: cs =>
    match matchEnumHeader (c :: cs) with
    | some rest => "Safety alert: ".data ++ rest
    | none => c :: replaceEnumHeader cs

/-- Match the pattern `\d+\.\s*` at the head of the text: a maximal digit
run, a literal dot, then a maximal whitespace run.  Exact for the greedy
regex because a digit run followed by anything other than a dot cannot be
rescued by giving digits back (a digit is not a dot). -/
def matchNumbering (cs : List Char) : Option (List Char) := do
  let r1 ← takeDigits cs
  match r1 with
  | '.' :: r2 => pure (dropWs r2)
  | _ => none

/-- Fuelled scanner for the global replacement of `/\d+\.\s*/g` by the
empty string (source line 416).  Each match consumes at least two
characters, so fuel equal to the input length never runs out. -/
def removeNumberingAux : Nat → List Char → List Char
  | 0, l => l
  | _ + 1, [] => []
  | n + 1, c :: cs =>
    match matchNumbering (c :: cs) with
    | some rest => removeNumberingAux n rest
    | none => c :: removeNumberingAux n cs

/-- Source line 416: `hazardText.replace(/\d+\.\s*/g, '')`. -/
def removeNumbering (l : List Char) : List Char := removeNumberingAux l.length l

/-- Match the pattern `\s*-\s*\d+\.\d+\s*` at the head of the text. -/
def matchConfidence (cs : List Char) : Option (List Char) :=
  match dropWs cs with
  | '-' :: r2 =>
    match takeDigits (dropWs r2) with
    | some r4 =>
      match r4 with
      | '.' :: r5 =>
        match takeDigits r5 with
        | some r6 => some (dropWs r6)
        | none => none
      | _ => none
    | none => none
  | _ => none

/-- Fuelled scanner for the global replacement of `/\s*-\s*\d+\.\d+\s*/g`
by the empty string (source line 417).  Each match consumes at least the
dash, a digit, the dot and a digit. -/
def removeConfidenceAux : Nat → List Char → List Char
  | 0, l => l
  | _ + 1, [] => []
  | n + 1, c :: cs =>
    match matchConfidence (c :: cs) with
    | some rest => removeConfidenceAux n rest
    | none => c :: removeConfidenceAux n cs

/-- Source line 417: `hazardText.replace(/\s*-\s*\d+\.\d+\s*/g, '')`. -/
def removeConfidence (l : List Char) : List Char := removeConfidenceAux l.length l

/-- Match the pattern `\(([^)]+)\)` at the head of the text and return the
captured group together with the suffix after the closing parenthesis.
`[^)]+` is greedy but cannot overrun the first closing parenthesis, so the
maximal run is exact. -/
def matchParen : List Char → Option (List Char × List Char)
  | '(' :: rest =>
    let content := rest.takeWhile (fun c => !(c = ')'))
    match content, rest.dropWhile (fun c => !(c = ')')) with
    | [], _ => none
    | _ :: _, ')' :: after => some (content, after)
    | _ :: _, _ => none
  | _ => none

/-- Fuelled scanner for the global replacement of `/\(([^)]+)\)/g` by the
captured group `$1` (source line 418): drop the parentheses, keep their
content.  Each match consumes at least three characters and emits one
fewer than it consumes. -/
def unwrapParensAux : Nat → List Char → List Char
  | 0, l => l
  | _ + 1, [] => []
  | n + 1, c :: cs =>
    match matchParen (c :: cs) with
    | some (content, rest) => content ++ unwrapParensAux n rest
    | none => c :: unwrapParensAux n cs

/-- Source line 418: `hazardText.replace(/\(([^)]+)\)/g, '$1')`. -/
def unwrapParens (l : List Char) : List Char := unwrapParensAux l.length l

/-- JavaScript `String.prototype.trim`: remove whitespace from both ends. -/
def trimChars (l : List Char) : List Char := (dropWs (dropWs l.reverse)).reverse

/-- The normalization pipeline applied to the raw hazard text inside
`speakCurrentDescription` (source lines 415-419): replace the enumeration
header, remove numbering, remove confidence scores, unwrap parentheses,
then trim. -/
def normalizeHazard (hazardText : String) : String :=
  String.mk
    (trimChars (unwrapParens (removeConfidence (removeNumbering
      (replaceEnumHeader hazardText.data)))))

/-- Fuelled scanner for a global, case-insensitive replacement of a fixed
literal pattern, modelling `text.replace(new RegExp(english, 'gi'),
translated)` (source lines 350-353; every table key is a plain literal
with no regex metacharacters).  A nonempty pattern consumes at least one
character per match, so fuel equal to the input length never runs out. -/
def replaceAllCIAux (pat rep : List Char) : Nat → List Char → List Char
  | 0, l => l
  | _ + 1, [] => []
  | n + 1, c :: cs =>
    match matchLitCI pat (c :: cs) with
    | some rest => rep ++ replaceAllCIAux pat rep n rest
    | none => c :: replaceAllCIAux pat rep n cs

/-- Global case-insensitive replacement of the literal `pat` by `rep`.
The empty pattern never occurs in the translation tables; it is mapped to
the identity. -/
def replaceAllCI (pat rep l : List Char) : List Char :=
  if pat.isEmpty then l else replaceAllCIAux pat rep l.length l

/-- String-level wrapper for `replaceAllCI`. -/
def replaceAllCIStr (pat rep s : String) : String :=
  String.mk (replaceAllCI pat.data rep.data s.data)

/-- The `hindi` phrase-substitution table of `translateHazardInfo`
(source lines 270-283), in the object-literal order, which is the order
in which `Object.entries(...).forEach` applies the substitutions. -/
def hindiTable : List (String × String) :=
  [("Safety alert", "सुरक्षा चेतावनी"),
   ("No hazardous objects present in the image", "छवि में कोई खतरनाक वस्तु मौजूद नहीं है"),
   ("detected", "का पता लगाया गया"),
   ("close", "पास"),
   ("very close", "बहुत पास"),
   ("medium distance", "मध्यम दूरी"),
   ("far", "दूर"),
   ("left", "बाएं"),
   ("center", "केंद्र"),
   ("right", "दाएं"),
   ("Scissors", "कैंची"),
   ("Knife", "चाकू")]

/-- The `bengali` phrase-substitution table (source lines 284-297). -/
def bengaliTable : List (String × String) :=
  [("Safety alert", "নিরাপত্তা সতর্কতা"),
   ("No hazardous objects present in the image", "ছবিতে কোনো বিপজ্জনক বস্তু নেই"),
   ("detected", "সনাক্ত করা হয়েছে"),
   ("close", "কাছে"),
   ("very close", "খুব কাছে"),
   ("medium distance", "মাঝারি দূরত্ব"),
   ("far", "দূরে"),
   ("left", "বাম"),
   ("center", "কেন্দ্র"),
   ("right", "ডান"),
   ("Scissors", "কাঁচি"),
   ("Knife", "ছুরি")]

/-- The `telugu` phrase-substitution table (source lines 298-311). -/
def teluguTable : List (String × String) :=
  [("Safety alert", "భద్రతా హెచ్చరిక"),
   ("No hazardous objects present in the image", "చిత్రంలో ప్రమాదకరమైన వస్తువులు లేవు"),
   ("detected", "గుర్తించబడింది"),
   ("close", "దగ్గరగా"),
   ("very close", "చాలా దగ్గరగా"),
   ("medium distance", "మధ్య దూరం"),
   ("far", "దూరంగా"),
   ("left", "ఎడమ"),
   ("center", "మధ్య"),
   ("right", "కుడి"),
   ("Scissors", "కత్తెర"),
   ("Knife", "కత్తి")]

/-- The `tamil` phrase-substitution table (source lines 312-325). -/
def tamilTable : List (String × String) :=
  [("Safety alert", "பாதுகாப்பு எச்சரிக்கை"),
   ("No hazardous objects present in the image", "படத்தில் ஆபத்தான பொருள்கள் எதுவும் இல்லை"),
   ("detected", "கண்டறியப்பட்டது"),
   ("close", "அருகில்"),
   ("very close", "மிக அருகில்"),
   ("medium distance", "நடுத்தர தூரம்"),
   ("far", "தொலைவில்"),
   ("left", "இடது"),
   ("center", "மையம்"),
   ("right", "வலது"),
   ("Scissors", "கத்தரிக்கோல்"),
   ("Knife", "கத்தி")]

/-- The `malayalam` phrase-substitution table (source lines 326-339). -/
def malayalamTable : List (String × String) :=
  [("Safety alert", "സുരക്ഷാ മുന്നറിയിപ്പ്"),
   ("No hazardous objects present in the image", "ചിത്രത്തിൽ അപകടകരമായ വസ്തുക്കൾ ഇല്ല"),
   ("detected", "കണ്ടെത്തി"),
   ("close", "അടുത്ത്"),
   ("very close", "വളരെ അടുത്ത്"),
   ("medium distance", "ഇടത്തരം ദൂരം"),
   ("far", "ദൂരെ"),
   ("left", "ഇടത്"),
   ("center", "മധ്യം"),
   ("right", "വലത്"),
   ("Scissors", "കത്രിക"),
   ("Knife", "കത്തി")]

/-- Lookup of `translations[targetLanguage.code]` (source line 347): the
per-language table, or `none` when the code has no table. -/
def translationsFor (code : String) : Option (List (String × String)) :=
  if code = "hindi" then some hindiTable
  else if code = "bengali" then some bengaliTable
  else if code = "telugu" then some teluguTable
  else if code = "tamil" then some tamilTable
  else if code = "malayalam" then some malayalamTable
  else none

/-- Source `translateHazardInfo` (lines 266-357): the identity for
English; otherwise the per-language substitutions are applied one after
the other in table order, each one replacing every case-insensitive
occurrence of its English phrase; a missing table leaves the text
unchanged. -/
def translateHazardInfo (hazardText : String) (targetLanguage : Language) : String :=
  if targetLanguage.code = "english" then hazardText
  else
    match translationsFor targetLanguage.code with
    | none => hazardText
    | some table =>
      table.foldl (fun acc e => replaceAllCIStr e.1 e.2 acc) hazardText

/-- Substring containment test: `hay` contains `needle` at some position. -/
def listContains (needle : List Char) : List Char → Bool
  | [] => needle.isEmpty
  | c :: cs =>
    match matchLitCI needle (c :: cs) with
    | some _ => true
    | none => listContains needle cs

/-- Source `hasHazardousObjects` (lines 260-264): false when the hazard
report is absent; otherwise the lower-cased report must contain
`'detected'` and must not contain `'no objects detected'`.  (An empty
report is falsy in the source and also fails the `'detected'` test here,
so the two readings agree.)  The needles are ASCII, so the
case-insensitive `matchLitCI` coincides with the source's
`toLowerCase().includes(...)`. -/
def hasHazardousObjects (hazardInfo : Option String) : Bool :=
  match hazardInfo with
  | none => false
  | some s =>
    listContains "detected".data s.data &&
      !(listContains "no objects detected".data s.data)

/-- The fixed sentence spoken when no hazardous object is found
(source line 424). -/
def noHazardSentence : String := "No hazardous objects present in the image"

/-- The fallback sentence substituted when normalization yields an empty
string (source line 421). -/
def genericFallback : String := "Safety alert: Hazardous objects detected in the image"

/-- The safety-message derivation of `speakCurrentDescription`
(source lines 407-432): when `hasHazardousObjects` holds, normalize the
raw report (substituting `genericFallback` if normalization is empty) and
translate it; otherwise translate the fixed no-hazard sentence. -/
def safetyMessage (hazardInfo : Option String) (lang : Language) : String :=
  if hasHazardousObjects hazardInfo then
    let hazardText := normalizeHazard (hazardInfo.getD "")
    let msg := if hazardText = "" then genericFallback else hazardText
    translateHazardInfo msg lang
  else
    translateHazardInfo noHazardSentence lang

/-- Modelled from the spec: the per-language "no hazardous objects"
boilerplate — `noHazardSentence` translated as a whole for the language,
i.e. the sentence itself for English and the full-sentence table entry
otherwise.  This definition follows the spec's words and is compared with
the code-derived `safetyMessage` in the theorem for claim C6. -/
def noHazardBoilerplate (lang : Language) : String :=
  if lang.code = "english" then noHazardSentence
  else
    match translationsFor lang.code with
    | none => noHazardSentence
    | some table =>
      match table.find? (fun e => e.1 = noHazardSentence) with
      | some e => e.2
      | none => noHazardSentence

/-- The terminal ways the playback-status callback of `playServerAudio`
can be driven by the platform (source lines 215-225): the audio finishes
(`status.isLoaded && status.didJustFinish`), the platform reports an error
(`!status.isLoaded && status.error`), or the sound is unloaded without an
error (the status update delivered after `unloadAsync`, which matches
neither branch of the callback). -/
inductive PlaybackStatus
  | didJustFinish
  | errorStatus
  | unloadedNoError
deriving DecidableEq

/-- The state of a JavaScript promise as observed by its awaiter. -/
inductive PromiseState
  | resolved
  | rejected
  | pending
deriving DecidableEq

/-- What `playServerAudio` leaves behind for a given terminal status:
whether the temporary audio file was deleted, and how the returned
promise settles. -/
structure ServerAudioResult where
  tempFileDeleted : Bool
  promise : PromiseState
deriving DecidableEq

/-- The status-update handler installed by `playServerAudio`
(source lines 216-224): on `didJustFinish` it deletes the temporary file
and resolves; on an error status it rejects without deleting; on an
unload without error it does nothing, leaving the promise pending and the
file in place. -/
def playServerAudio : PlaybackStatus → ServerAudioResult
  | .didJustFinish => ⟨true, .resolved⟩
  | .errorStatus => ⟨false, .rejected⟩
  | .unloadedNoError => ⟨false, .pending⟩

/-- The two audio-source strategies of the controller: pre-rendered server
audio (`playServerAudio`) and on-device synthesis (`playTTSAudio`). -/
inductive Strategy
  | server
  | tts
deriving DecidableEq

/-- Program-counter positions of the `speakCurrentDescription` async body:
idle (no body in flight or its continuation orphaned), the three awaits
on the description unit (server attempt at line 388, its synthesis
fallback at line 391, the direct synthesis attempt at line 394), the
1000 ms intermission await (line 401), and the await on the safety unit
(line 432). -/
inductive Pc
  | idle
  | awaitDescServer
  | awaitDescFallback
  | awaitDescTts
  | intermission
  | awaitSafety
deriving DecidableEq

/-- A caption for the active language: its text together with whether a
(non-empty) `audio_base64` payload is present. -/
structure Caption where
  text : String
  hasAudio : Bool
deriving DecidableEq

/-- The inputs `speakCurrentDescription` reads from component state: the
audio-source preference `audioMode` and `captions[currentLanguage.code]`
(absent when no caption exists for the active language). -/
structure Config where
  audioMode : Strategy
  caption : Option Caption
deriving DecidableEq

/-- Alerts surfaced by the controller: the "No Description" alert of line
375 and the "Audio Error" alert of line 440. -/
inductive AlertKind
  | noDescription
  | audioError
deriving DecidableEq

/-- The live narration state: the program counter of the async body, the
three phase flags (`isPlaying`, `isPlayingDescription`, `isPlayingHazard`),
whether a sound resource is held in `soundRef`, whether `Speech.stop()`
has been called, the playback attempts made for the description unit (in
order, with their strategy), how many safety units have been started, and
the last alert shown. -/
structure Session where
  pc : Pc
  isPlaying : Bool
  isPlayingDescription : Bool
  isPlayingHazard : Bool
  soundLoaded : Bool
  speechStopped : Bool
  descAttempts : List Strategy
  safetyPlays : Nat
  alert : Option AlertKind
deriving DecidableEq

/-- The pristine state before any narration: everything idle and empty. -/
def initialSession : Session :=
  ⟨.idle, false, false, false, false, false, [], 0, none⟩

/-- The events that can drive a session forward: the promise currently
awaited settles (`resolve` / `reject`), the intermission timer fires
(`timerFire`), or the user invokes `speakCurrentDescription` again
(`press`). -/
inductive Ev
  | resolve
  | reject
  | timerFire
  | press
deriving DecidableEq

/-- The stop path of `speakCurrentDescription` (source lines 360-371),
taken when `isPlaying` is true: unload the sound, call `Speech.stop()`,
reset the three phase flags, and return.  The promise awaited by the
in-flight body can no longer settle — `unloadAsync` delivers a status
matching neither callback branch and `Speech.stop()` fires `onStopped`
rather than `onDone`/`onError` — so a body suspended on a playback await
is orphaned (modelled as `pc := idle`).  The 1000 ms intermission timer,
however, is never cleared, so a body suspended there stays pending and
will still resume. -/
def stopPlayback (s : Session) : Session :=
  { s with
    soundLoaded := false
    speechStopped := true
    isPlaying := false
    isPlayingDescription := false
    isPlayingHazard := false
    pc := if s.pc = Pc.intermission then Pc.intermission else Pc.idle }

/-- The start path of `speakCurrentDescription` (source lines 373-396),
taken when `isPlaying` is false: a missing caption raises the
"No Description" alert and changes nothing else; otherwise the phase
flags are set and the description unit starts via the server strategy
(when it is preferred and the caption has a payload) or directly via
synthesis. -/
def startPlayback (cfg : Config) (s : Session) : Session :=
  match cfg.caption with
  | none => { s with alert := some AlertKind.noDescription }
  | some cap =>
    if cfg.audioMode = Strategy.server ∧ cap.hasAudio = true then
      { s with
        isPlaying := true
        isPlayingDescription := true
        soundLoaded := true
        descAttempts := s.descAttempts ++ [Strategy.server]
        pc := Pc.awaitDescServer }
    else
      { s with
        isPlaying := true
        isPlayingDescription := true
        descAttempts := s.descAttempts ++ [Strategy.tts]
        pc := Pc.awaitDescTts }

/-- One step of the session under an event.

* `press` is a new invocation of `speakCurrentDescription`: the stop path
  when `isPlaying`, the start path otherwise (source line 360).
* `resolve` of a description await reaches the intermission (lines
  397-401); `resolve` of the safety await runs the tail of the body and
  its `finally` (lines 435-445), returning to idle.
* `reject` of the server attempt is caught at line 389 and starts the
  single synthesis fallback (line 391); `reject` of any synthesis attempt
  propagates to the outer catch (lines 438-445): the "Audio Error" alert
  is shown and the `finally` resets the flags.
* `timerFire` ends the intermission and starts the safety unit (lines
  404-433); this happens even if a stop ran during the intermission,
  because the timer is never cleared.
* Events that do not match the current program counter are stale
  (an orphaned promise, a spurious timer) and change nothing. -/
def step (cfg : Config) (s : Session) : Ev → Session
  | .press => if s.isPlaying then stopPlayback s else startPlayback cfg s
  | .resolve =>
    match s.pc with
    | .awaitDescServer => { s with isPlayingDescription := false, pc := Pc.intermission }
    | .awaitDescFallback => { s with isPlayingDescription := false, pc := Pc.intermission }
    | .awaitDescTts => { s with isPlayingDescription := false, pc := Pc.intermission }
    | .awaitSafety =>
      { s with
        isPlaying := false
        isPlayingDescription := false
        isPlayingHazard := false
        pc := Pc.idle }
    | _ => s
  | .reject =>
    match s.pc with
    | .awaitDescServer =>
      { s with descAttempts := s.descAttempts ++ [Strategy.tts], pc := Pc.awaitDescFallback }
    | .awaitDescFallback =>
      { s with
        alert := some AlertKind.audioError
        isPlaying := false
        isPlayingDescription := false
        isPlayingHazard := false
        pc := Pc.idle }
    | .awaitDescTts =>
      { s with
        alert := some AlertKind.audioError
        isPlaying := false
        isPlayingDescription := false
        isPlayingHazard := false
        pc := Pc.idle }
    | .awaitSafety =>
      { s with
        alert := some AlertKind.audioError
        isPlaying := false
        isPlayingDescription := false
        isPlayingHazard := false
        pc := Pc.idle }
    | _ => s
  | .timerFire =>
    match s.pc with
    | .intermission =>
      { s with
        isPlayingHazard := true
        safetyPlays := s.safetyPlays + 1
        pc := Pc.awaitSafety }
    | _ => s

/-- Run a session through a list of events. -/
def run (cfg : Config) (s : Session) : List Ev → Session
  | [] => s
  | e :: es => run cfg (step cfg s e) es

/-- The description unit is currently being played: the async body is
suspended on one of the three description awaits. -/
def isDescribing (s : Session) : Prop :=
  s.pc = Pc.awaitDescServer ∨ s.pc = Pc.awaitDescFallback ∨ s.pc = Pc.awaitDescTts

instance (s : Session) : Decidable (isDescribing s) := by
  unfold isDescribing
  infer_instance

/-- The concrete hazard report of the specification scenario. -/
def scenarioHazardReport : String :=
  "Detected 2 objects:\n1. Knife - 0.91 (close, left)\n2. Scissors - 0.77 (far, right)"

/-- From an idle program counter, any event other than a button press is
stale and leaves the session unchanged. -/
theorem step_idle_stale (cfg : Config) (s : Session) (e : Ev)
    (hpc : s.pc = Pc.idle) (he : e ≠ Ev.press) : step cfg s e = s := by
  cases e with
  | press => exact absurd rfl he
  | resolve => simp [step, hpc]
  | reject => simp [step, hpc]
  | timerFire => simp [step, hpc]

/-- From an idle program counter, a run that contains no button press
leaves the session unchanged. -/
theorem run_idle_stale (cfg : Config) (s : Session) (evs : List Ev)
    (hpc : s.pc = Pc.idle) (hnp : Ev.press ∉ evs) : run cfg s evs = s := by
  induction evs with
  | nil => rfl
  | cons e es ih =>
    have he : e ≠ Ev.press := by
      intro h
      exact hnp (by simp [h])
    have hes : Ev.press ∉ es := fun h => hnp (List.mem_cons_of_mem _ h)
    rw [run, step_idle_stale cfg s e hpc he]
    exact ih hes

/-- Claim C1 counterexample: on the specification's concrete hazard
report, normalization does not yield
"Safety alert: Knife close, left Scissors far, right", and the Hindi
safety message is not the translation the claim derives from that string.
The numbering replacement `/\d+\.\s*/g` runs before the confidence-score
replacement and already consumes the "0." of each score, so the
score-removal pattern `\s*-\s*\d+\.\d+\s*` never matches and the digits
"91" and "77" survive, as does the newline between the two items. -/
theorem scenario_normalization_claim_false :
    normalizeHazard scenarioHazardReport
        ≠ "Safety alert: Knife close, left Scissors far, right" ∧
    safetyMessage (some scenarioHazardReport) hindiLang
        ≠ "सुरक्षा चेतावनी: चाकू पास, बाएं कैंची दूर, दाएं" :=
  ⟨by decide, by decide⟩

/-- Claim C1 (amended): processing the concrete hazard report normalizes
it to "Safety alert: Knife - 91 close, left\nScissors - 77 far, right"
(header replaced, numbering removed, but the numbering pass also strips
the decimal point of each confidence score, leaving its fractional digits
behind and making the score-removal pass a no-op; parentheses unwrapped;
newline kept), and the Hindi translation then substitutes the table
phrases, leaving connective words untranslated. -/
theorem scenario_normalization_actual :
    normalizeHazard scenarioHazardReport
        = "Safety alert: Knife - 91 close, left\nScissors - 77 far, right" ∧
    safetyMessage (some scenarioHazardReport) hindiLang
        = "सुरक्षा चेतावनी: चाकू - 91 पास, बाएं\nकैंची - 77 दूर, दाएं" :=
  ⟨by decide, by decide⟩

/-- Claim C2: if a Stop command (a press while playing) arrives while the
description unit is playing, the playback resource is released, speech
synthesis is stopped, the session returns to Idle, and no safety unit is
ever started for that session — any remaining events of the session
(which contains no further press) leave the safety-play count unchanged. -/
theorem stop_during_description_no_safety (cfg : Config) (s : Session) (evs : List Ev)
    (hdesc : isDescribing s) (hplay : s.isPlaying = true) (hnp : Ev.press ∉ evs) :
    (step cfg s Ev.press).isPlaying = false ∧
    (step cfg s Ev.press).soundLoaded = false ∧
    (step cfg s Ev.press).speechStopped = true ∧
    (step cfg s Ev.press).pc = Pc.idle ∧
    (run cfg (step cfg s Ev.press) evs).safetyPlays = s.safetyPlays := by
  have hstep : step cfg s Ev.press = stopPlayback s := by
    simp [step, hplay]
  have hpc : (stopPlayback s).pc = Pc.idle := by
    rcases hdesc with h | h | h <;> simp [stopPlayback, h]
  refine ⟨?_, ?_, ?_, ?_, ?_⟩ <;> rw [hstep]
  · rfl
  · rfl
  · rfl
  · exact hpc
  · rw [run_idle_stale cfg _ evs hpc hnp]
    rfl

/-- Claim C2 witness at a concrete session stopped while the server
description attempt is in flight, followed by stale resolution events. -/
theorem stop_during_description_no_safety_witness :
    isDescribing ⟨Pc.awaitDescServer, true, true, false, true, false, [Strategy.server], 0, none⟩ ∧
    (⟨Pc.awaitDescServer, true, true, false, true, false, [Strategy.server], 0, none⟩ : Session).isPlaying = true ∧
    Ev.press ∉ [Ev.resolve, Ev.timerFire, Ev.reject] ∧
    ((step ⟨Strategy.server, some ⟨"a dog", true⟩⟩
        ⟨Pc.awaitDescServer, true, true, false, true, false, [Strategy.server], 0, none⟩ Ev.press).isPlaying = false ∧
     (step ⟨Strategy.server, some ⟨"a dog", true⟩⟩
        ⟨Pc.awaitDescServer, true, true, false, true, false, [Strategy.server], 0, none⟩ Ev.press).soundLoaded = false ∧
     (step ⟨Strategy.server, some ⟨"a dog", true⟩⟩
        ⟨Pc.awaitDescServer, true, true, false, true, false, [Strategy.server], 0, none⟩ Ev.press).speechStopped = true ∧
     (step ⟨Strategy.server, some ⟨"a dog", true⟩⟩
        ⟨Pc.awaitDescServer, true, true, false, true, false, [Strategy.server], 0, none⟩ Ev.press).pc = Pc.idle ∧
     (run ⟨Strategy.server, some ⟨"a dog", true⟩⟩
        (step ⟨Strategy.server, some ⟨"a dog", true⟩⟩
          ⟨Pc.awaitDescServer, true, true, false, true, false, [Strategy.server], 0, none⟩ Ev.press)
        [Ev.resolve, Ev.timerFire, Ev.reject]).safetyPlays
       = (⟨Pc.awaitDescServer, true, true, false, true, false, [Strategy.server], 0, none⟩ : Session).safetyPlays) :=
  ⟨Or.inl rfl, rfl, by decide,
   stop_during_description_no_safety ⟨Strategy.server, some ⟨"a dog", true⟩⟩
     ⟨Pc.awaitDescServer, true, true, false, true, false, [Strategy.server], 0, none⟩
     [Ev.resolve, Ev.timerFire, Ev.reject] (Or.inl rfl) rfl (by decide)⟩

/-- Claim C3: with the rendered-audio preference and a caption carrying a
payload, a failing rendered attempt triggers exactly one synthesis retry
of the same unit (the attempt list grows by exactly one synthesis entry
and the body suspends on the fallback await); if that synthesis attempt
also fails, the Audio Error alert is surfaced, the controller returns to
Idle, and no further attempt is ever made during the session. -/
theorem server_failure_single_tts_retry (cfg : Config) (cap : Caption) (s : Session)
    (evs : List Ev)
    (hmode : cfg.audioMode = Strategy.server) (hcap : cfg.caption = some cap)
    (haudio : cap.hasAudio = true) (hidle : s.isPlaying = false) (hnp : Ev.press ∉ evs) :
    (step cfg s Ev.press).descAttempts = s.descAttempts ++ [Strategy.server] ∧
    (step cfg s Ev.press).pc = Pc.awaitDescServer ∧
    (step cfg (step cfg s Ev.press) Ev.reject).descAttempts
        = s.descAttempts ++ [Strategy.server, Strategy.tts] ∧
    (step cfg (step cfg s Ev.press) Ev.reject).pc = Pc.awaitDescFallback ∧
    (step cfg (step cfg (step cfg s Ev.press) Ev.reject) Ev.reject).descAttempts
        = s.descAttempts ++ [Strategy.server, Strategy.tts] ∧
    (step cfg (step cfg (step cfg s Ev.press) Ev.reject) Ev.reject).alert
        = some AlertKind.audioError ∧
    (step cfg (step cfg (step cfg s Ev.press) Ev.reject) Ev.reject).pc = Pc.idle ∧
    (step cfg (step cfg (step cfg s Ev.press) Ev.reject) Ev.reject).isPlaying = false ∧
    (run cfg (step cfg (step cfg (step cfg s Ev.press) Ev.reject) Ev.reject) evs).descAttempts
        = s.descAttempts ++ [Strategy.server, Strategy.tts] := by
  have h1 : step cfg s Ev.press =
      { s with isPlaying := true, isPlayingDescription := true, soundLoaded := true,
               descAttempts := s.descAttempts ++ [Strategy.server],
               pc := Pc.awaitDescServer } := by
    simp [step, hidle, startPlayback, hcap, hmode, haudio]
  have h2 : step cfg (step cfg s Ev.press) Ev.reject =
      { s with isPlaying := true, isPlayingDescription := true, soundLoaded := true,
               descAttempts := s.descAttempts ++ [Strategy.server, Strategy.tts],
               pc := Pc.awaitDescFallback } := by
    rw [h1]; simp [step]
  have h3 : step cfg (step cfg (step cfg s Ev.press) Ev.reject) Ev.reject =
      { s with isPlaying := false, isPlayingDescription := false, isPlayingHazard := false,
               soundLoaded := true,
               descAttempts := s.descAttempts ++ [Strategy.server, Strategy.tts],
               pc := Pc.idle, alert := some AlertKind.audioError } := by
    rw [h2]; simp [step]
  have h4 : run cfg (step cfg (step cfg (step cfg s Ev.press) Ev.reject) Ev.reject) evs
      = step cfg (step cfg (step cfg s Ev.press) Ev.reject) Ev.reject :=
    run_idle_stale cfg _ evs (by rw [h3]) hnp
  refine ⟨?_, ?_, ?_, ?_, ?_, ?_, ?_, ?_, ?_⟩
  · rw [h1]
  · rw [h1]
  · rw [h2]
  · rw [h2]
  · rw [h3]
  · rw [h3]
  · rw [h3]
  · rw [h3]
  · rw [h4, h3]

/-- Claim C3 witness at a concrete idle session with the server
preference, a caption with rendered audio, and two failures. -/
theorem server_failure_single_tts_retry_witness :
    ((⟨Strategy.server, some ⟨"a dog", true⟩⟩ : Config).audioMode = Strategy.server) ∧
    ((⟨Strategy.server, some ⟨"a dog", true⟩⟩ : Config).caption = some ⟨"a dog", true⟩) ∧
    ((⟨"a dog", true⟩ : Caption).hasAudio = true) ∧
    (initialSession.isPlaying = false) ∧
    Ev.press ∉ [Ev.resolve] ∧
    ((step ⟨Strategy.server, some ⟨"a dog", true⟩⟩ initialSession Ev.press).descAttempts
        = initialSession.descAttempts ++ [Strategy.server] ∧
     (step ⟨Strategy.server, some ⟨"a dog", true⟩⟩ initialSession Ev.press).pc = Pc.awaitDescServer ∧
     (step ⟨Strategy.server, some ⟨"a dog", true⟩⟩
        (step ⟨Strategy.server, some ⟨"a dog", true⟩⟩ initialSession Ev.press) Ev.reject).descAttempts
        = initialSession.descAttempts ++ [Strategy.server, Strategy.tts] ∧
     (step ⟨Strategy.server, some ⟨"a dog", true⟩⟩
        (step ⟨Strategy.server, some ⟨"a dog", true⟩⟩ initialSession Ev.press) Ev.reject).pc
        = Pc.awaitDescFallback ∧
     (step ⟨Strategy.server, some ⟨"a dog", true⟩⟩
        (step ⟨Strategy.server, some ⟨"a dog", true⟩⟩
          (step ⟨Strategy.server, some ⟨"a dog", true⟩⟩ initialSession Ev.press) Ev.reject)
        Ev.reject).descAttempts
        = initialSession.descAttempts ++ [Strategy.server, Strategy.tts] ∧
     (step ⟨Strategy.server, some ⟨"a dog", true⟩⟩
        (step ⟨Strategy.server, some ⟨"a dog", true⟩⟩
          (step ⟨Strategy.server, some ⟨"a dog", true⟩⟩ initialSession Ev.press) Ev.reject)
        Ev.reject).alert = some AlertKind.audioError ∧
     (step ⟨Strategy.server, some ⟨"a dog", true⟩⟩
        (step ⟨Strategy.server, some ⟨"a dog", true⟩⟩
          (step ⟨Strategy.server, some ⟨"a dog", true⟩⟩ initialSession Ev.press) Ev.reject)
        Ev.reject).pc = Pc.idle ∧
     (step ⟨Strategy.server, some ⟨"a dog", true⟩⟩
        (step ⟨Strategy.server, some ⟨"a dog", true⟩⟩
          (step ⟨Strategy.server, some ⟨"a dog", true⟩⟩ initialSession Ev.press) Ev.reject)
        Ev.reject).isPlaying = false ∧
     (run ⟨Strategy.server, some ⟨"a dog", true⟩⟩
        (step ⟨Strategy.server, some ⟨"a dog", true⟩⟩
          (step ⟨Strategy.server, some ⟨"a dog", true⟩⟩
            (step ⟨Strategy.server, some ⟨"a dog", true⟩⟩ initialSession Ev.press) Ev.reject)
          Ev.reject) [Ev.resolve]).descAttempts
        = initialSession.descAttempts ++ [Strategy.server, Strategy.tts]) :=
  ⟨rfl, rfl, rfl, rfl, by decide,
   server_failure_single_tts_retry ⟨Strategy.server, some ⟨"a dog", true⟩⟩ ⟨"a dog", true⟩
     initialSession [Ev.resolve] rfl rfl rfl rfl (by decide)⟩

/-- Claim C4 counterexample: the temporary audio file is NOT deleted on a
playback error, nor on an unload (cancellation) — the status-update
handler of `playServerAudio` deletes it only in the `didJustFinish`
branch. -/
theorem temp_file_leak :
    (playServerAudio PlaybackStatus.errorStatus).tempFileDeleted = false ∧
    (playServerAudio PlaybackStatus.unloadedNoError).tempFileDeleted = false :=
  ⟨rfl, rfl⟩

/-- Claim C4 (amended): the temporary file materialized by
`playServerAudio` is deleted exactly on successful completion
(`didJustFinish`); on a playback error the promise rejects without
deleting it, and on cancellation (unload) the promise stays pending and
the file is likewise leaked. -/
theorem temp_file_deleted_only_on_success :
    (playServerAudio PlaybackStatus.didJustFinish).tempFileDeleted = true ∧
    (playServerAudio PlaybackStatus.didJustFinish).promise = PromiseState.resolved ∧
    (playServerAudio PlaybackStatus.errorStatus).tempFileDeleted = false ∧
    (playServerAudio PlaybackStatus.errorStatus).promise = PromiseState.rejected ∧
    (playServerAudio PlaybackStatus.unloadedNoError).tempFileDeleted = false ∧
    (playServerAudio PlaybackStatus.unloadedNoError).promise = PromiseState.pending :=
  ⟨rfl, rfl, rfl, rfl, rfl, rfl⟩

/-- Claim C5 counterexample: substitution is neither whole-phrase nor
per-entry exhaustive.  The entry "very close" → "बहुत पास" is never applied
to the input "very close", because the earlier entry "close" already
consumed its tail; and "close" is replaced even inside the word
"enclosed". -/
theorem translation_not_whole_phrase :
    translateHazardInfo "very close" hindiLang = "very पास" ∧
    translateHazardInfo "very close" hindiLang ≠ "बहुत पास" ∧
    translateHazardInfo "enclosed" hindiLang = "enपासd" :=
  ⟨by decide, by decide, by decide⟩

/-- Claim C5 (amended): translation applies the table entries one after
the other in their fixed table order, each replacing every
case-insensitive substring occurrence of its English phrase (matching is
not word-bounded, and an earlier entry can consume part of a later
entry's phrase, so "very close" becomes "very " plus the translation of
"close"); phrases absent from the table pass through unchanged, and for
English the translation is the identity. -/
theorem translation_sequential_substring :
    (∀ s : String, translateHazardInfo s englishLang = s) ∧
    translateHazardInfo "Gun" hindiLang = "Gun" ∧
    translateHazardInfo "CLOSE" hindiLang = "पास" ∧
    translateHazardInfo "very close" hindiLang = "very पास" ∧
    translateHazardInfo "enclosed" hindiLang = "enपासd" :=
  ⟨fun _ => rfl, by decide, by decide, by decide, by decide⟩

/-- Claim C6: when the hazard report is absent or indicates zero
detections (the `hasHazardousObjects` test is false), the safety message
is exactly the language's "no hazardous objects" boilerplate — the fixed
sentence translated as a whole — and never the generic
detection-confirmation fallback sentence. -/
theorem no_hazard_sentinel_boilerplate (lang : Language) (h : Option String)
    (hlang : lang ∈ LANGUAGES) (hno : hasHazardousObjects h = false) :
    safetyMessage h lang = noHazardBoilerplate lang ∧
    safetyMessage h lang ≠ translateHazardInfo genericFallback lang := by
  have hmsg : safetyMessage h lang = translateHazardInfo noHazardSentence lang := by
    simp [safetyMessage, hno]
  rw [hmsg]
  simp only [LANGUAGES, List.mem_cons, List.not_mem_nil, or_false] at hlang
  rcases hlang with rfl | rfl | rfl | rfl | rfl | rfl
  · exact ⟨by decide, by decide⟩
  · exact ⟨by decide, by decide⟩
  · exact ⟨by decide, by decide⟩
  · exact ⟨by decide, by decide⟩
  · exact ⟨by decide, by decide⟩
  · exact ⟨by decide, by decide⟩

/-- Claim C6 witness for Hindi with an absent hazard report. -/
theorem no_hazard_sentinel_boilerplate_witness :
    hindiLang ∈ LANGUAGES ∧ hasHazardousObjects none = false ∧
    (safetyMessage none hindiLang = noHazardBoilerplate hindiLang ∧
     safetyMessage none hindiLang ≠ translateHazardInfo genericFallback hindiLang) :=
  ⟨by decide, rfl, no_hazard_sentinel_boilerplate hindiLang none (by decide) rfl⟩

/-- Claim C7 counterexample: processing is not idempotent.  Re-processing
the Hindi output of the concrete hazard report as if it were a raw report
yields the Hindi no-hazard boilerplate (the output no longer contains the
word "detected"), so the already-translated phrase "चाकू" present in the
first output is gone from the second. -/
theorem reprocessing_not_idempotent :
    safetyMessage (some (safetyMessage (some scenarioHazardReport) hindiLang)) hindiLang
        ≠ safetyMessage (some scenarioHazardReport) hindiLang ∧
    listContains "चाकू".data (safetyMessage (some scenarioHazardReport) hindiLang).data = true ∧
    listContains "चाकू".data
        (safetyMessage (some (safetyMessage (some scenarioHazardReport) hindiLang)) hindiLang).data
        = false :=
  ⟨by decide, by decide, by decide⟩

/-- Claim C7 (amended): the hazard-text processing is deterministic (it
is a pure function of the report and the language), and the translation
stage alone leaves its own output unchanged; but feeding the full output
back in as a raw report routes it through the zero-detection branch
(the output no longer contains "detected") and returns the no-hazard
boilerplate instead of preserving the translated phrases. -/
theorem processing_deterministic_not_idempotent :
    (∀ (h₁ h₂ : Option String) (l₁ l₂ : Language), h₁ = h₂ → l₁ = l₂ →
        safetyMessage h₁ l₁ = safetyMessage h₂ l₂) ∧
    safetyMessage (some (safetyMessage (some scenarioHazardReport) hindiLang)) hindiLang
        = noHazardBoilerplate hindiLang ∧
    translateHazardInfo (safetyMessage (some scenarioHazardReport) hindiLang) hindiLang
        = safetyMessage (some scenarioHazardReport) hindiLang := by
  refine ⟨fun h₁ h₂ l₁ l₂ hh hl => by rw [hh, hl], by decide, by decide⟩

/-- Claim C7 witness: determinism instantiated at the concrete scenario. -/
theorem processing_deterministic_witness :
    some scenarioHazardReport = some scenarioHazardReport ∧
    hindiLang = hindiLang ∧
    safetyMessage (some scenarioHazardReport) hindiLang
        = safetyMessage (some scenarioHazardReport) hindiLang :=
  ⟨rfl, rfl,
   processing_deterministic_not_idempotent.1 (some scenarioHazardReport)
     (some scenarioHazardReport) hindiLang hindiLang rfl rfl⟩

/-- Claim C8: with no caption for the active language, a press from an
idle session raises the "No Description" alert, the phase stays Idle, no
playback is attempted (the attempt list is unchanged, the safety count is
unchanged) and no audio resource is allocated. -/
theorem missing_caption_stays_idle (cfg : Config) (s : Session)
    (hcap : cfg.caption = none) (hpc : s.pc = Pc.idle)
    (hplay : s.isPlaying = false) (hsound : s.soundLoaded = false) :
    (step cfg s Ev.press).alert = some AlertKind.noDescription ∧
    (step cfg s Ev.press).pc = Pc.idle ∧
    (step cfg s Ev.press).isPlaying = false ∧
    (step cfg s Ev.press).soundLoaded = false ∧
    (step cfg s Ev.press).descAttempts = s.descAttempts ∧
    (step cfg s Ev.press).safetyPlays = s.safetyPlays := by
  simp [step, hplay, startPlayback, hcap, hpc, hsound]

/-- Claim C8 witness at the pristine session and an empty caption map. -/
theorem missing_caption_stays_idle_witness :
    ((⟨Strategy.server, none⟩ : Config).caption = none) ∧
    initialSession.pc = Pc.idle ∧
    initialSession.isPlaying = false ∧
    initialSession.soundLoaded = false ∧
    ((step ⟨Strategy.server, none⟩ initialSession Ev.press).alert = some AlertKind.noDescription ∧
     (step ⟨Strategy.server, none⟩ initialSession Ev.press).pc = Pc.idle ∧
     (step ⟨Strategy.server, none⟩ initialSession Ev.press).isPlaying = false ∧
     (step ⟨Strategy.server, none⟩ initialSession Ev.press).soundLoaded = false ∧
     (step ⟨Strategy.server, none⟩ initialSession Ev.press).descAttempts
        = initialSession.descAttempts ∧
     (step ⟨Strategy.server, none⟩ initialSession Ev.press).safetyPlays
        = initialSession.safetyPlays) :=
  ⟨rfl, rfl, rfl, rfl,
   missing_caption_stays_idle ⟨Strategy.server, none⟩ initialSession rfl rfl rfl rfl⟩

/-- Claim C9: advancing the language moves the index from `i` to
`(i + 1) mod 6` over the fixed six-entry catalog; five advances from 0
reach 5, a sixth wraps to 0, and the index always stays below the catalog
length. -/
theorem language_advance_cyclic :
    LANGUAGES.length = 6 ∧
    LANGUAGES.map Language.code
        = ["english", "hindi", "bengali", "telugu", "tamil", "malayalam"] ∧
    (∀ i : Nat, nextLanguageIndex i = (i + 1) % 6) ∧
    advanceLanguageTimes 5 0 = 5 ∧
    advanceLanguageTimes 6 0 = 0 ∧
    (∀ i : Nat, nextLanguageIndex i < LANGUAGES.length) := by
  refine ⟨rfl, rfl, fun i => rfl, by decide, by decide, fun i => ?_⟩
  show (i + 1) % 6 < 6
  exact Nat.mod_lt _ (by decide)

/-- Claim C10: pressing the narration button while a narration is playing
acts exactly as Stop — the sound resource is unloaded, speech synthesis
is stopped, all three phase flags are reset — and the call returns
without starting a new unit or reporting an error (the attempt list, the
safety count and the alert are unchanged). -/
theorem press_while_playing_is_stop (cfg : Config) (s : Session)
    (hplay : s.isPlaying = true) :
    step cfg s Ev.press = stopPlayback s ∧
    (step cfg s Ev.press).isPlaying = false ∧
    (step cfg s Ev.press).isPlayingDescription = false ∧
    (step cfg s Ev.press).isPlayingHazard = false ∧
    (step cfg s Ev.press).soundLoaded = false ∧
    (step cfg s Ev.press).speechStopped = true ∧
    (step cfg s Ev.press).descAttempts = s.descAttempts ∧
    (step cfg s Ev.press).safetyPlays = s.safetyPlays ∧
    (step cfg s Ev.press).alert = s.alert := by
  have hstep : step cfg s Ev.press = stopPlayback s := by simp [step, hplay]
  refine ⟨hstep, ?_, ?_, ?_, ?_, ?_, ?_, ?_, ?_⟩ <;> rw [hstep] <;> rfl

/-- Claim C10 witness at a concrete playing session. -/
theorem press_while_playing_is_stop_witness :
    ((⟨Pc.awaitDescTts, true, true, false, false, false, [Strategy.tts], 0, none⟩ : Session).isPlaying
        = true) ∧
    (step ⟨Strategy.tts, some ⟨"a dog", false⟩⟩
        ⟨Pc.awaitDescTts, true, true, false, false, false, [Strategy.tts], 0, none⟩ Ev.press
      = stopPlayback ⟨Pc.awaitDescTts, true, true, false, false, false, [Strategy.tts], 0, none⟩ ∧
     (step ⟨Strategy.tts, some ⟨"a dog", false⟩⟩
        ⟨Pc.awaitDescTts, true, true, false, false, false, [Strategy.tts], 0, none⟩ Ev.press).isPlaying
        = false ∧
     (step ⟨Strategy.tts, some ⟨"a dog", false⟩⟩
        ⟨Pc.awaitDescTts, true, true, false, false, false, [Strategy.tts], 0, none⟩ Ev.press).isPlayingDescription
        = false ∧
     (step ⟨Strategy.tts, some ⟨"a dog", false⟩⟩
        ⟨Pc.awaitDescTts, true, true, false, false, false, [Strategy.tts], 0, none⟩ Ev.press).isPlayingHazard
        = false ∧
     (step ⟨Strategy.tts, some ⟨"a dog", false⟩⟩
        ⟨Pc.awaitDescTts, true, true, false, false, false, [Strategy.tts], 0, none⟩ Ev.press).soundLoaded
        = false ∧
     (step ⟨Strategy.tts, some ⟨"a dog", false⟩⟩
        ⟨Pc.awaitDescTts, true, true, false, false, false, [Strategy.tts], 0, none⟩ Ev.press).speechStopped
        = true ∧
     (step ⟨Strategy.tts, some ⟨"a dog", false⟩⟩
        ⟨Pc.awaitDescTts, true, true, false, false, false, [Strategy.tts], 0, none⟩ Ev.press).descAttempts
        = (⟨Pc.awaitDescTts, true, true, false, false, false, [Strategy.tts], 0, none⟩ : Session).descAttempts ∧
     (step ⟨Strategy.tts, some ⟨"a dog", false⟩⟩
        ⟨Pc.awaitDescTts, true, true, false, false, false, [Strategy.tts], 0, none⟩ Ev.press).safetyPlays
        = (⟨Pc.awaitDescTts, true, true, false, false, false, [Strategy.tts], 0, none⟩ : Session).safetyPlays ∧
     (step ⟨Strategy.tts, some ⟨"a dog", false⟩⟩
        ⟨Pc.awaitDescTts, true, true, false, false, false, [Strategy.tts], 0, none⟩ Ev.press).alert
        = (⟨Pc.awaitDescTts, true, true, false, false, false, [Strategy.tts], 0, none⟩ : Session).alert) :=
  ⟨rfl,
   press_while_playing_is_stop ⟨Strategy.tts, some ⟨"a dog", false⟩⟩
     ⟨Pc.awaitDescTts, true, true, false, false, false, [Strategy.tts], 0, none⟩ rfl⟩

end ImgDesc
